import Mathlib

/-!
Verification of the Z1 Isaac Sim import extension
(`src/exts/isaacsim.import_z1/isaacsim/import_z1/import_z1.py`).

The extension's state and the operations the claims are about are embedded
shallowly: numeric values are modelled as exact rationals (the floating-point
arithmetic of the host is idealised to exact arithmetic), host services that
the extension merely calls (the USD stage, the RMPflow policy, trigonometric
library functions) appear as explicit oracle parameters, and Python
exceptions are modelled with `Except` together with the handler structure of
the source.
-/

namespace ImportZ1

/-! ### Numeric model

Python's `math.pi` is the IEEE-754 double closest to π; `math.radians x`
computes `x * (pi / 180)`.  We model the double value of `math.pi` exactly as
a rational. -/

/-- The exact rational value of the IEEE-754 double `math.pi`. -/
def mathPi : ℚ := 884279719003555 / 281474976710656

/-- `math.radians`: degrees to radians, as used at line 916 of the source. -/
def radians (deg : ℚ) : ℚ := deg * (mathPi / 180)

/-- `math.degrees`: radians to degrees, as used in `_on_config_drives`. -/
def degreesQ (rad : ℚ) : ℚ := rad * (180 / mathPi)

/-- `Gf.Vec3` style 3-vector. -/
structure Vec3 where
  x : ℚ
  y : ℚ
  z : ℚ
deriving DecidableEq

/-- `Gf.Quatf` style quaternion, stored as (w, x, y, z) like the source. -/
structure Quat where
  w : ℚ
  x : ℚ
  y : ℚ
  z : ℚ
deriving DecidableEq

/-- The identity quaternion `Gf.Quatf(1.0, 0.0, 0.0, 0.0)`. -/
def identityQuat : Quat := ⟨1, 0, 0, 0⟩

/-! ### Python string operations used by the gripper DOF lookup -/

/-- Python `str.lower` (the DOF names involved are ASCII). -/
def lowerStr (s : String) : String := String.mk (s.data.map Char.toLower)

/-- Whether the first list of characters starts the second. -/
def startsWithChars : List Char → List Char → Bool
  | [], _ => true
  | _ :: _, [] => false
  | a :: as, b :: bs => a == b && startsWithChars as bs

/-- Python `needle in hay` substring test on character lists. -/
def containsChars (needle : List Char) : List Char → Bool
  | [] => startsWithChars needle []
  | c :: rest => startsWithChars needle (c :: rest) || containsChars needle rest

/-- Python `needle in hay` on strings. -/
def strIn (needle hay : String) : Bool := containsChars needle.data hay.data

def gripperNeedle : String := "gripper"

def jointGripperNeedle : String := "jointgripper"

/-- Line 902 of the source: `"gripper" in name.lower() or "jointgripper" in
name.lower()`. -/
def nameMatchesGripper (n : String) : Bool :=
  strIn gripperNeedle (lowerStr n) || strIn jointGripperNeedle (lowerStr n)

/-- The `for i, name in enumerate(joint_names)` loop with `break`, lines
900-904: first index whose name matches the gripper test. -/
def findGripperIndexAux : ℕ → List String → Option ℕ
  | _, [] => none
  | i, n :: rest =>
    if nameMatchesGripper n then some i else findGripperIndexAux (i + 1) rest

/-- Index of the gripper DOF in the articulation's DOF-name list. -/
def findGripperIndex (names : List String) : Option ℕ := findGripperIndexAux 0 names

/-! ### The articulation action returned by the policy -/

/-- `ArticulationAction` as used by the callback: it carries an optional
joint-position vector (line 910 checks `joint_positions is not None`) and an
optional joint-velocity vector that the callback never touches. -/
structure ArticulationAction where
  joint_positions : Option (List ℚ)
  joint_velocities : Option (List ℚ)
deriving DecidableEq

/-- Body of the `try` block at lines 896-923: locate the gripper DOF and
overwrite its slot with `math.radians(self._gripper_target_position)`.
Reading `actions.joint_positions[i]` with `i` out of range raises an
`IndexError`, modelled as the `Except.error` case; every other path of the
block is total. -/
def patchGripperE (dofNames : List String) (gripperDeg : ℚ)
    (a : ArticulationAction) : Except Unit ArticulationAction :=
  match findGripperIndex dofNames with
  | none => Except.ok a
  | some i =>
    match a.joint_positions with
    | none => Except.ok a
    | some jp =>
      if i < jp.length then
        Except.ok { a with joint_positions := some (jp.set i (radians gripperDeg)) }
      else
        Except.error ()

/-- The `try ... except` wrapper at lines 895-929: on failure the exception is
logged (second component `true`) and the action is left as the policy
returned it. -/
def tryPatchGripper (dofNames : List String) (gripperDeg : ℚ)
    (a : ArticulationAction) : ArticulationAction × Bool :=
  match patchGripperE dofNames gripperDeg a with
  | Except.ok a2 => (a2, false)
  | Except.error _ => (a, true)

/-! ### Reading the target prim's pose, lines 829-884 -/

/-- One ordered xform op of the target prim.  `otherOp` stands for any op
type that is neither translate, orient nor rotateXYZ, which the loop at
lines 838-872 ignores. -/
inductive XformOp where
  | translate (v : Vec3)
  | orient (q : Quat)
  | rotateXYZ (e : Vec3)
  | otherOp
deriving DecidableEq

/-- Default target position `Gf.Vec3d(0.4, 0.0, 0.4)`, line 834. -/
def defaultTargetPos : Vec3 := ⟨2/5, 0, 2/5⟩

/-- Euler-XYZ degrees to quaternion, lines 855-872.  The host `math.cos` and
`math.sin` are oracle parameters. -/
def eulerToQuat (cosF sinF : ℚ → ℚ) (e : Vec3) : Quat :=
  let rx := radians e.x
  let ry := radians e.y
  let rz := radians e.z
  let cy := cosF (rz * (1/2))
  let sy := sinF (rz * (1/2))
  let cp := cosF (ry * (1/2))
  let sp := sinF (ry * (1/2))
  let cr := cosF (rx * (1/2))
  let sr := sinF (rx * (1/2))
  ⟨cr * cp * cy + sr * sp * sy,
   sr * cp * cy - cr * sp * sy,
   cr * sp * cy + sr * cp * sy,
   cr * cp * sy - sr * sp * cy⟩

/-- One iteration of the `for op in ops` loop at lines 838-872. -/
def applyXformOp (cosF sinF : ℚ → ℚ) (pq : Vec3 × Quat) (op : XformOp) :
    Vec3 × Quat :=
  match op with
  | XformOp.translate v => (v, pq.2)
  | XformOp.orient q => (pq.1, q)
  | XformOp.rotateXYZ e => (pq.1, eulerToQuat cosF sinF e)
  | XformOp.otherOp => pq

/-- Lines 829-872: fold the ordered xform ops over the default pose. -/
def readTargetPose (cosF sinF : ℚ → ℚ) (ops : List XformOp) : Vec3 × Quat :=
  ops.foldl (applyXformOp cosF sinF) (defaultTargetPos, identityQuat)

/-! ### The physics-step coordinator `_on_rmpflow_physics_step` -/

/-- Environment of one invocation of `_on_rmpflow_physics_step`:
* `controllerSome`: `self._rmp_controller` and `self._z1_articulation` are
  both non-`None` (line 810);
* `handlesInit`: `handles_initialized` at entry (line 814);
* `handlesAfterAttempt`: `handles_initialized` after the guarded
  `initialize()` attempt of lines 816-819 (only consulted when
  `handlesInit` is false);
* `targetOps`: the ordered xform ops of the target prim, `none` when the
  prim is missing or invalid (lines 825-827);
* `dofNames`: `self._z1_articulation.dof_names`;
* `gripperTargetPosition`: `self._gripper_target_position` in degrees;
* `forward`: the `MotionPolicyController.forward` oracle (lines 887-890);
* `cosF`, `sinF`: the host trigonometric functions. -/
structure StepEnv where
  controllerSome : Bool
  handlesInit : Bool
  handlesAfterAttempt : Bool
  targetOps : Option (List XformOp)
  dofNames : List String
  gripperTargetPosition : ℚ
  forward : Vec3 → Quat → ArticulationAction
  cosF : ℚ → ℚ
  sinF : ℚ → ℚ

/-- Observable outcome of one invocation of the callback:
* `readTarget`: whether the stage was queried for the target prim;
* `forwardArgs`: the (position, orientation) passed to the policy, when it
  was called;
* `appliedAction`: the action passed to `apply_action`, when one was;
* `patchErrorLogged`: whether the `except` branch at lines 924-929 ran. -/
structure StepResult where
  readTarget : Bool
  forwardArgs : Option (Vec3 × Quat)
  appliedAction : Option ArticulationAction
  patchErrorLogged : Bool
deriving DecidableEq

/-- `_on_rmpflow_physics_step`, lines 806-932. -/
def physicsStep (e : StepEnv) : StepResult :=
  if e.controllerSome = false then ⟨false, none, none, false⟩
  else if e.handlesInit = false && e.handlesAfterAttempt = false then
    ⟨false, none, none, false⟩
  else
    match e.targetOps with
    | none => ⟨true, none, none, false⟩
    | some ops =>
      let pq := readTargetPose e.cosF e.sinF ops
      let a := e.forward pq.1 pq.2
      let pr := tryPatchGripper e.dofNames e.gripperTargetPosition a
      ⟨true, some pq, some pr.1, pr.2⟩

/-! ### Joint drives and `set_drive_parameters` -/

/-- State of one joint drive in the scene graph, per the spec's data model:
control mode, target value, stiffness, damping, force limit.  `none` means
the attribute has never been authored. -/
structure DriveParams where
  mode : Option String
  target : Option ℚ
  stiffness : Option ℚ
  damping : Option ℚ
  maxForce : Option ℚ
deriving DecidableEq

def positionMode : String := "position"

/-- Modelled from the spec: the repository's `common.set_drive_parameters`
helper (imported at the top of the source file) is not under `src/`.  Per the
spec a joint drive is a "per-joint actuator descriptor with control mode
(position/velocity), target value, stiffness, damping, and force limit;
owned by the scene graph, mutated via setter calls".  The helper sets the
control mode and target it is given, and sets stiffness/damping only when
they are supplied, leaving omitted fields unchanged. -/
def set_drive_parameters (p : DriveParams) (mode : String) (target : ℚ)
    (stiffness damping : Option ℚ) : DriveParams :=
  { p with
    mode := some mode
    target := some target
    stiffness := if stiffness.isSome then stiffness else p.stiffness
    damping := if damping.isSome then damping else p.damping }

/-! ### The gripper toggle `_on_control_gripper`, lines 664-697 -/

/-- The extension state consulted and mutated by the gripper toggle:
`self._gripper_open`, `self._gripper_target_position`, and the drive of
`self.joint_gripper` (assumed configured, per the guard at lines 675-681). -/
structure GripperState where
  gripperOpen : Bool
  gripperTargetPosition : ℚ
  gripperDrive : DriveParams
deriving DecidableEq

/-- Lines 683-697: flip the open/closed state, command 0 degrees when
closing and -90 degrees when opening. -/
def onControlGripper (s : GripperState) : GripperState :=
  if s.gripperOpen then
    { gripperOpen := false
      gripperTargetPosition := 0
      gripperDrive := set_drive_parameters s.gripperDrive positionMode 0 none none }
  else
    { gripperOpen := true
      gripperTargetPosition := -90
      gripperDrive := set_drive_parameters s.gripperDrive positionMode (-90) none none }

/-- States the toggle can actually be entered from: the flag and the stored
target agree (closed ↔ 0 degrees, open ↔ -90 degrees) and the configured
drive's commanded target is the stored target, as established by
`_on_config_robot` and preserved by every toggle. -/
def GripperReachable (s : GripperState) : Prop :=
  (s.gripperOpen = false → s.gripperTargetPosition = 0) ∧
  (s.gripperOpen = true → s.gripperTargetPosition = -90) ∧
  s.gripperDrive.target = some s.gripperTargetPosition

/-! ### RMPflow setup `_ensure_rmpflow_setup`, lines 703-776 -/

/-- Environment of `_ensure_rmpflow_setup`: whether the controller already
exists (line 707), whether the articulation's handles are initialized after
the guarded `initialize()` attempt (line 739), and the world pose
`get_world_pose()` would report. -/
structure RmpSetupEnv where
  controllerAlready : Bool
  handlesInitialized : Bool
  worldPose : Vec3 × Quat

/-- The robot base pose handed to `set_robot_base_pose` (lines 737-749);
`none` when construction is skipped because the controller already exists.
The function is total: no path of the construction raises. -/
def ensureRmpflowBasePose (e : RmpSetupEnv) : Option (Vec3 × Quat) :=
  if e.controllerAlready then none
  else if e.handlesInitialized then some e.worldPose
  else some (⟨0, 0, 0⟩, identityQuat)

/-! ### The drive configurator `_on_config_robot`, lines 526-636 -/

/-- The seven joint-drive handles stored on the extension instance
(`self.joint_1` .. `self.joint_gripper`).  A handle is the scene-graph path
of the drive it is bound to; `none` models a Python attribute that is
missing or `None`. -/
structure Joints where
  joint_1 : Option String
  joint_2 : Option String
  joint_3 : Option String
  joint_4 : Option String
  joint_5 : Option String
  joint_6 : Option String
  joint_gripper : Option String
deriving DecidableEq

/-- Full extension state touched by the configurator: the articulation's
solver iteration counts, the stored joint handles, the per-path drive
parameters of the scene graph, and the gripper flag/target. -/
structure ExtState where
  solverPositionIterationCount : Option ℕ
  solverVelocityIterationCount : Option ℕ
  joints : Joints
  scene : String → DriveParams
  gripperOpen : Bool
  gripperTargetPosition : ℚ

def robotPath : String := "/z1_description"

def joint1Name : String := "joint1"

def joint2Name : String := "joint2"

def joint3Name : String := "joint3"

def joint4Name : String := "joint4"

def joint5Name : String := "joint5"

def joint6Name : String := "joint6"

def jointGripperName : String := "jointGripper"

def jointsSegment : String := "/joints/"

def slashStr : String := "/"

/-- One `try` block of lines 576-599: fetch the seven drive handles at
`base ++ jointX` in order, assigning each into the instance as it is
fetched.  `gd` is the `UsdPhysics.DriveAPI.Get` oracle; `Except.error`
models the call raising.  The returned flag is `true` when the whole block
ran without an exception; on an exception the assignments already made
persist, exactly as Python leaves them. -/
def trySchemeJoints (gd : String → Except Unit String) (base : String)
    (j0 : Joints) : Joints × Bool :=
  match gd (base ++ joint1Name) with
  | Except.error _ => (j0, false)
  | Except.ok d1 =>
    let j1 := { j0 with joint_1 := some d1 }
    match gd (base ++ joint2Name) with
    | Except.error _ => (j1, false)
    | Except.ok d2 =>
      let j2 := { j1 with joint_2 := some d2 }
      match gd (base ++ joint3Name) with
      | Except.error _ => (j2, false)
      | Except.ok d3 =>
        let j3 := { j2 with joint_3 := some d3 }
        match gd (base ++ joint4Name) with
        | Except.error _ => (j3, false)
        | Except.ok d4 =>
          let j4 := { j3 with joint_4 := some d4 }
          match gd (base ++ joint5Name) with
          | Except.error _ => (j4, false)
          | Except.ok d5 =>
            let j5 := { j4 with joint_5 := some d5 }
            match gd (base ++ joint6Name) with
            | Except.error _ => (j5, false)
            | Except.ok d6 =>
              let j6 := { j5 with joint_6 := some d6 }
              match gd (base ++ jointGripperName) with
              | Except.error _ => (j6, false)
              | Except.ok dg => ({ j6 with joint_gripper := some dg }, true)

/-- `math.radians(1e8)`: arm stiffness, lines 622-627. -/
def armStiffness : ℚ := radians 100000000

/-- `math.radians(5e7)`: arm damping. -/
def armDamping : ℚ := radians 50000000

/-- `math.radians(1e7)`: gripper stiffness, line 632. -/
def gripperStiffness : ℚ := radians 10000000

/-- `math.radians(5e6)`: gripper damping. -/
def gripperDamping : ℚ := radians 5000000

/-- Apply `set_drive_parameters` to the drive a handle is bound to, as a
point update of the scene.  A `none` handle leaves the scene untouched. -/
def setParamsAt (scene : String → DriveParams) (h : Option String)
    (mode : String) (tgt : ℚ) (st dp : Option ℚ) : String → DriveParams :=
  match h with
  | none => scene
  | some p => fun q => if q = p then set_drive_parameters (scene p) mode tgt st dp else scene q

/-- Lines 622-636: on a successful lookup, set the gains of the six arm
joints and the gripper joint and reset the gripper flag and target. -/
def applyConfigGains (s : ExtState) : ExtState :=
  let sc1 := setParamsAt s.scene s.joints.joint_1 positionMode 0 (some armStiffness) (some armDamping)
  let sc2 := setParamsAt sc1 s.joints.joint_2 positionMode 0 (some armStiffness) (some armDamping)
  let sc3 := setParamsAt sc2 s.joints.joint_3 positionMode 0 (some armStiffness) (some armDamping)
  let sc4 := setParamsAt sc3 s.joints.joint_4 positionMode 0 (some armStiffness) (some armDamping)
  let sc5 := setParamsAt sc4 s.joints.joint_5 positionMode 0 (some armStiffness) (some armDamping)
  let sc6 := setParamsAt sc5 s.joints.joint_6 positionMode 0 (some armStiffness) (some armDamping)
  let sc7 := setParamsAt sc6 s.joints.joint_gripper positionMode 0 (some gripperStiffness) (some gripperDamping)
  { s with scene := sc7, gripperOpen := false, gripperTargetPosition := 0 }

/-- `_on_config_robot`, lines 526-636.  The solver iteration counts are set
to 64 (lines 564-567) before the joint lookup; then the primary naming
scheme `{robot}/joints/jointX` is tried and, on failure, the fallback
`{robot}/jointX`; if both fail an error is reported (second component
`true`) and the function returns before any gain is set. -/
def onConfigRobot (gd : String → Except Unit String) (s : ExtState) :
    ExtState × Bool :=
  let s1 : ExtState :=
    { s with
      solverPositionIterationCount := some 64
      solverVelocityIterationCount := some 64 }
  let r1 := trySchemeJoints gd (robotPath ++ jointsSegment) s1.joints
  if r1.2 then (applyConfigGains { s1 with joints := r1.1 }, false)
  else
    let r2 := trySchemeJoints gd (robotPath ++ slashStr) r1.1
    if r2.2 then (applyConfigGains { s1 with joints := r2.1 }, false)
    else ({ s1 with joints := r2.1 }, true)

/-- `_on_config_drives`, lines 638-662: run `_on_config_robot` first, abort
(with a printed error, second component `true`) when `self.joint_1` is
missing or `None`, otherwise command the six arm joints to the fixed pose
via `set_drive_parameters(joint, "position", math.degrees(v))`. -/
def onConfigDrives (gd : String → Except Unit String) (s : ExtState) :
    ExtState × Bool :=
  let s1 := (onConfigRobot gd s).1
  match s1.joints.joint_1 with
  | none => (s1, true)
  | some _ =>
    let sc1 := setParamsAt s1.scene s1.joints.joint_1 positionMode (degreesQ 0) none none
    let sc2 := setParamsAt sc1 s1.joints.joint_2 positionMode (degreesQ (157/100)) none none
    let sc3 := setParamsAt sc2 s1.joints.joint_3 positionMode (degreesQ (-157/100)) none none
    let sc4 := setParamsAt sc3 s1.joints.joint_4 positionMode (degreesQ (52/100)) none none
    let sc5 := setParamsAt sc4 s1.joints.joint_5 positionMode (degreesQ (52/100)) none none
    let sc6 := setParamsAt sc5 s1.joints.joint_6 positionMode (degreesQ (157/100)) none none
    ({ s1 with scene := sc6 }, false)

/-! ## Supporting lemmas -/

lemma eraseIdx_set_eq {α : Type} (l : List α) (i : ℕ) (v : α) :
    (l.set i v).eraseIdx i = l.eraseIdx i := by
  induction l generalizing i with
  | nil => cases i <;> rfl
  | cons a as ih =>
    cases i with
    | zero => rfl
    | succ n => simpa using ih n

lemma foldl_otherOps_fixed (cosF sinF : ℚ → ℚ) (ops : List XformOp)
    (h : ∀ op ∈ ops, op = XformOp.otherOp) (init : Vec3 × Quat) :
    ops.foldl (applyXformOp cosF sinF) init = init := by
  induction ops generalizing init with
  | nil => rfl
  | cons o rest ih =>
    have ho : o = XformOp.otherOp := h o (by simp)
    have hrest : ∀ op ∈ rest, op = XformOp.otherOp := fun op hm => h op (by simp [hm])
    simp [ho, applyXformOp, ih hrest]

/-! ## Claim theorems -/

/-- C1: in a physics step with the articulation initialized, a valid target
prim, a gripper DOF found at index `i`, and a non-`None` joint-position
vector in the policy's action, the applied action is the policy's raw
output with exactly slot `i` replaced by the stored gripper target
converted from degrees to radians; the other slots are unchanged. -/
theorem physics_step_gripper_override (e : StepEnv) (ops : List XformOp)
    (i : ℕ) (jp : List ℚ)
    (hc : e.controllerSome = true) (hh : e.handlesInit = true)
    (ht : e.targetOps = some ops)
    (hg : findGripperIndex e.dofNames = some i)
    (hjp : (e.forward (readTargetPose e.cosF e.sinF ops).1
        (readTargetPose e.cosF e.sinF ops).2).joint_positions = some jp)
    (hlen : i < jp.length) :
    (physicsStep e).appliedAction =
      some { e.forward (readTargetPose e.cosF e.sinF ops).1
               (readTargetPose e.cosF e.sinF ops).2 with
             joint_positions := some (jp.set i (radians e.gripperTargetPosition)) } ∧
    (jp.set i (radians e.gripperTargetPosition))[i]? =
      some (radians e.gripperTargetPosition) ∧
    (jp.set i (radians e.gripperTargetPosition)).eraseIdx i = jp.eraseIdx i ∧
    (jp.set i (radians e.gripperTargetPosition)).length = jp.length := by
  refine ⟨?_, List.getElem?_set_eq_of_lt _ hlen, eraseIdx_set_eq jp i _, List.length_set jp i _⟩
  simp [physicsStep, hc, hh, ht, tryPatchGripper, patchGripperE, hg, hjp, hlen]

def witnessForward : Vec3 → Quat → ArticulationAction :=
  fun _ _ => ⟨some [1, 2], none⟩

def idQ : ℚ → ℚ := fun q => q

def witnessEnv : StepEnv :=
  { controllerSome := true
    handlesInit := true
    handlesAfterAttempt := true
    targetOps := some []
    dofNames := [joint1Name, jointGripperName]
    gripperTargetPosition := -90
    forward := witnessForward
    cosF := idQ
    sinF := idQ }

theorem physics_step_gripper_override_witness :
    (witnessEnv.controllerSome = true ∧ witnessEnv.handlesInit = true ∧
      witnessEnv.targetOps = some [] ∧
      findGripperIndex witnessEnv.dofNames = some 1 ∧
      (witnessEnv.forward (readTargetPose witnessEnv.cosF witnessEnv.sinF []).1
        (readTargetPose witnessEnv.cosF witnessEnv.sinF []).2).joint_positions =
        some [1, 2] ∧
      1 < ([1, 2] : List ℚ).length) ∧
    ((physicsStep witnessEnv).appliedAction =
      some { witnessEnv.forward (readTargetPose witnessEnv.cosF witnessEnv.sinF []).1
               (readTargetPose witnessEnv.cosF witnessEnv.sinF []).2 with
             joint_positions :=
               some (([1, 2] : List ℚ).set 1 (radians witnessEnv.gripperTargetPosition)) } ∧
      (([1, 2] : List ℚ).set 1 (radians witnessEnv.gripperTargetPosition))[1]? =
        some (radians witnessEnv.gripperTargetPosition) ∧
      (([1, 2] : List ℚ).set 1 (radians witnessEnv.gripperTargetPosition)).eraseIdx 1 =
        ([1, 2] : List ℚ).eraseIdx 1 ∧
      (([1, 2] : List ℚ).set 1 (radians witnessEnv.gripperTargetPosition)).length =
        ([1, 2] : List ℚ).length) :=
  ⟨⟨rfl, rfl, rfl, by decide, rfl, by decide⟩,
    physics_step_gripper_override witnessEnv [] 1 [1, 2] rfl rfl rfl
      (by decide) rfl (by decide)⟩

/-- C2: when the articulation's handles are uninitialized at tick time and
the lazy in-tick initialization attempt leaves them uninitialized, the
callback returns without reading the target prim, without calling the
policy and without applying an action; no path of this early return can
raise (the `initialize()` attempt is guarded by a bare `except`). -/
theorem physics_step_uninitialized_skip (e : StepEnv)
    (h1 : e.handlesInit = false) (h2 : e.handlesAfterAttempt = false) :
    physicsStep e = ⟨false, none, none, false⟩ := by
  cases hc : e.controllerSome <;> simp [physicsStep, h1, h2, hc]

def uninitEnv : StepEnv :=
  { witnessEnv with handlesInit := false, handlesAfterAttempt := false }

theorem physics_step_uninitialized_skip_witness :
    (uninitEnv.handlesInit = false ∧ uninitEnv.handlesAfterAttempt = false) ∧
    physicsStep uninitEnv = ⟨false, none, none, false⟩ :=
  ⟨⟨rfl, rfl⟩, physics_step_uninitialized_skip uninitEnv rfl rfl⟩

/-- C3: when the gripper-patch step raises (the only raising operation in
the `try` block is indexing the joint-position vector out of range), the
exception is caught and logged and the applied action is still the policy's
unmodified output: the tick completes. -/
theorem physics_step_patch_failure_safe (e : StepEnv) (ops : List XformOp)
    (hc : e.controllerSome = true) (hh : e.handlesInit = true)
    (ht : e.targetOps = some ops)
    (hfail : patchGripperE e.dofNames e.gripperTargetPosition
        (e.forward (readTargetPose e.cosF e.sinF ops).1
          (readTargetPose e.cosF e.sinF ops).2) = Except.error ()) :
    (physicsStep e).appliedAction =
      some (e.forward (readTargetPose e.cosF e.sinF ops).1
        (readTargetPose e.cosF e.sinF ops).2) ∧
    (physicsStep e).patchErrorLogged = true := by
  constructor <;> simp [physicsStep, hc, hh, ht, tryPatchGripper, hfail]

def shortForward : Vec3 → Quat → ArticulationAction :=
  fun _ _ => ⟨some [], none⟩

def shortEnv : StepEnv := { witnessEnv with forward := shortForward }

theorem physics_step_patch_failure_safe_witness :
    (shortEnv.controllerSome = true ∧ shortEnv.handlesInit = true ∧
      shortEnv.targetOps = some [] ∧
      patchGripperE shortEnv.dofNames shortEnv.gripperTargetPosition
        (shortEnv.forward (readTargetPose shortEnv.cosF shortEnv.sinF []).1
          (readTargetPose shortEnv.cosF shortEnv.sinF []).2) = Except.error ()) ∧
    ((physicsStep shortEnv).appliedAction =
      some (shortEnv.forward (readTargetPose shortEnv.cosF shortEnv.sinF []).1
        (readTargetPose shortEnv.cosF shortEnv.sinF []).2) ∧
      (physicsStep shortEnv).patchErrorLogged = true) :=
  ⟨⟨rfl, rfl, rfl, rfl⟩,
    physics_step_patch_failure_safe shortEnv [] rfl rfl rfl rfl⟩

/-- C6: with the articulation initialized and a valid target prim whose
ordered xform ops carry no transform (no translate, orient or rotateXYZ
op), the pose forwarded to the policy is the fixed default: position
(0.4, 0.0, 0.4) and the identity quaternion (1, 0, 0, 0). -/
theorem physics_step_default_pose (e : StepEnv) (ops : List XformOp)
    (hc : e.controllerSome = true) (hh : e.handlesInit = true)
    (ht : e.targetOps = some ops)
    (hops : ∀ op ∈ ops, op = XformOp.otherOp) :
    (physicsStep e).forwardArgs = some (⟨2/5, 0, 2/5⟩, ⟨1, 0, 0, 0⟩) := by
  have hpose : readTargetPose e.cosF e.sinF ops = (defaultTargetPos, identityQuat) :=
    foldl_otherOps_fixed e.cosF e.sinF ops hops _
  simp [physicsStep, hc, hh, ht, hpose, defaultTargetPos, identityQuat]

theorem physics_step_default_pose_witness :
    (witnessEnv.controllerSome = true ∧ witnessEnv.handlesInit = true ∧
      witnessEnv.targetOps = some [] ∧
      (∀ op ∈ ([] : List XformOp), op = XformOp.otherOp)) ∧
    (physicsStep witnessEnv).forwardArgs = some (⟨2/5, 0, 2/5⟩, ⟨1, 0, 0, 0⟩) :=
  ⟨⟨rfl, rfl, rfl, by simp⟩,
    physics_step_default_pose witnessEnv [] rfl rfl rfl (by simp)⟩

/-- C7: with the target prim carrying an orient op set to the identity
quaternion and a translate op set to (0.4, 0.0, 0.4) — as the target cube is
created — the policy's `forward` is called with exactly that position and
exactly the identity quaternion (w, x, y, z). -/
theorem physics_step_exact_target_pose (e : StepEnv)
    (hc : e.controllerSome = true) (hh : e.handlesInit = true)
    (ht : e.targetOps =
      some [XformOp.orient ⟨1, 0, 0, 0⟩, XformOp.translate ⟨2/5, 0, 2/5⟩]) :
    (physicsStep e).forwardArgs = some (⟨2/5, 0, 2/5⟩, ⟨1, 0, 0, 0⟩) := by
  simp [physicsStep, hc, hh, ht, readTargetPose, applyXformOp, defaultTargetPos,
    identityQuat]

def poseEnv : StepEnv :=
  { witnessEnv with
    targetOps := some [XformOp.orient ⟨1, 0, 0, 0⟩, XformOp.translate ⟨2/5, 0, 2/5⟩] }

theorem physics_step_exact_target_pose_witness :
    (poseEnv.controllerSome = true ∧ poseEnv.handlesInit = true ∧
      poseEnv.targetOps =
        some [XformOp.orient ⟨1, 0, 0, 0⟩, XformOp.translate ⟨2/5, 0, 2/5⟩]) ∧
    (physicsStep poseEnv).forwardArgs = some (⟨2/5, 0, 2/5⟩, ⟨1, 0, 0, 0⟩) :=
  ⟨⟨rfl, rfl, rfl⟩, physics_step_exact_target_pose poseEnv rfl rfl rfl⟩

/-- C8: during motion-policy construction with the articulation's handles
uninitialized, construction does not fail and the robot base pose passed to
the policy defaults to the origin (0, 0, 0) with the identity orientation
quaternion (1, 0, 0, 0). -/
theorem rmpflow_base_pose_default (e : RmpSetupEnv)
    (h1 : e.controllerAlready = false) (h2 : e.handlesInitialized = false) :
    ensureRmpflowBasePose e = some (⟨0, 0, 0⟩, identityQuat) := by
  simp [ensureRmpflowBasePose, h1, h2]

def setupEnv : RmpSetupEnv :=
  { controllerAlready := false
    handlesInitialized := false
    worldPose := (⟨1, 2, 3⟩, ⟨1, 0, 0, 0⟩) }

theorem rmpflow_base_pose_default_witness :
    (setupEnv.controllerAlready = false ∧ setupEnv.handlesInitialized = false) ∧
    ensureRmpflowBasePose setupEnv = some (⟨0, 0, 0⟩, identityQuat) :=
  ⟨⟨rfl, rfl⟩, rmpflow_base_pose_default setupEnv rfl rfl⟩

/-- C4: for every reachable gripper state with a configured drive handle,
toggling the gripper twice returns both the stored target angle and the
drive's commanded target to their original values; starting closed, the
commanded-angle sequence over toggle, toggle is 0, -90, 0 degrees. -/
theorem gripper_toggle_roundtrip (s : GripperState) (h : GripperReachable s) :
    (onControlGripper (onControlGripper s)).gripperTargetPosition =
      s.gripperTargetPosition ∧
    (onControlGripper (onControlGripper s)).gripperDrive.target =
      s.gripperDrive.target ∧
    (s.gripperOpen = false →
      (s.gripperTargetPosition,
        (onControlGripper s).gripperTargetPosition,
        (onControlGripper (onControlGripper s)).gripperTargetPosition) =
        (0, -90, 0)) := by
  obtain ⟨hclosed, hopen, hdrive⟩ := h
  cases ho : s.gripperOpen with
  | false =>
    refine ⟨?_, ?_, ?_⟩ <;>
      simp [onControlGripper, ho, set_drive_parameters, hdrive, hclosed ho]
  | true =>
    refine ⟨?_, ?_, ?_⟩ <;>
      simp [onControlGripper, ho, set_drive_parameters, hdrive, hopen ho]

def closedGripper : GripperState :=
  { gripperOpen := false
    gripperTargetPosition := 0
    gripperDrive :=
      { mode := some positionMode
        target := some 0
        stiffness := some gripperStiffness
        damping := some gripperDamping
        maxForce := none } }

theorem gripper_toggle_roundtrip_witness :
    GripperReachable closedGripper ∧
    ((onControlGripper (onControlGripper closedGripper)).gripperTargetPosition =
      closedGripper.gripperTargetPosition ∧
    (onControlGripper (onControlGripper closedGripper)).gripperDrive.target =
      closedGripper.gripperDrive.target ∧
    (closedGripper.gripperOpen = false →
      (closedGripper.gripperTargetPosition,
        (onControlGripper closedGripper).gripperTargetPosition,
        (onControlGripper (onControlGripper closedGripper)).gripperTargetPosition) =
        (0, -90, 0))) :=
  ⟨⟨fun _ => rfl, fun hx => by simp [closedGripper] at hx, rfl⟩,
    gripper_toggle_roundtrip closedGripper
      ⟨fun _ => rfl, fun hx => by simp [closedGripper] at hx, rfl⟩⟩

/-! ## Supporting lemmas for the drive configurator -/

/-- One gain write of `applyConfigGains`: handle, target, stiffness,
damping (the mode is always position control there). -/
structure GainWrite where
  handle : Option String
  tgt : ℚ
  st : ℚ
  dp : ℚ

/-- Sequential application of gain writes to the scene. -/
def writeGains (sc : String → DriveParams) : List GainWrite → (String → DriveParams)
  | [] => sc
  | w :: ws => writeGains (setParamsAt sc w.handle positionMode w.tgt (some w.st) (some w.dp)) ws

/-- The seven writes performed by `applyConfigGains`. -/
def configWrites (j : Joints) : List GainWrite :=
  [⟨j.joint_1, 0, armStiffness, armDamping⟩,
   ⟨j.joint_2, 0, armStiffness, armDamping⟩,
   ⟨j.joint_3, 0, armStiffness, armDamping⟩,
   ⟨j.joint_4, 0, armStiffness, armDamping⟩,
   ⟨j.joint_5, 0, armStiffness, armDamping⟩,
   ⟨j.joint_6, 0, armStiffness, armDamping⟩,
   ⟨j.joint_gripper, 0, gripperStiffness, gripperDamping⟩]

lemma applyConfigGains_as_writes (s : ExtState) :
    applyConfigGains s =
      { s with
        scene := writeGains s.scene (configWrites s.joints)
        gripperOpen := false
        gripperTargetPosition := 0 } := rfl

lemma setParamsAt_maxForce (sc : String → DriveParams) (h : Option String)
    (m : String) (t : ℚ) (st dp : Option ℚ) (q : String) :
    ((setParamsAt sc h m t st dp) q).maxForce = (sc q).maxForce := by
  cases h with
  | none => rfl
  | some p =>
    simp only [setParamsAt]
    by_cases hq : q = p <;> simp [hq, set_drive_parameters]

lemma setParamsAt_ne (sc : String → DriveParams) (h : Option String)
    (m : String) (t : ℚ) (st dp : Option ℚ) (q : String)
    (hq : ∀ p, h = some p → q ≠ p) :
    setParamsAt sc h m t st dp q = sc q := by
  cases h with
  | none => rfl
  | some p => simp [setParamsAt, hq p rfl]

lemma writeGains_maxForce (ws : List GainWrite) (sc : String → DriveParams)
    (q : String) : ((writeGains sc ws) q).maxForce = (sc q).maxForce := by
  induction ws generalizing sc with
  | nil => rfl
  | cons w ws ih => rw [writeGains, ih, setParamsAt_maxForce]

lemma writeGains_ne (ws : List GainWrite) (sc : String → DriveParams) (q : String)
    (hq : ∀ w ∈ ws, ∀ p, w.handle = some p → q ≠ p) :
    writeGains sc ws q = sc q := by
  induction ws generalizing sc with
  | nil => rfl
  | cons w ws ih =>
    rw [writeGains, ih, setParamsAt_ne]
    · exact fun p hp => hq w (by simp) p hp
    · exact fun w2 hw2 p hp => hq w2 (by simp [hw2]) p hp

lemma writeGains_congr (ws : List GainWrite) (sc1 sc2 : String → DriveParams)
    (hmf : ∀ q, (sc2 q).maxForce = (sc1 q).maxForce)
    (hout : ∀ q, (∀ w ∈ ws, ∀ p, w.handle = some p → q ≠ p) → sc2 q = sc1 q) :
    writeGains sc2 ws = writeGains sc1 ws := by
  induction ws generalizing sc1 sc2 with
  | nil => funext q; exact hout q (by simp)
  | cons w ws ih =>
    rw [writeGains, writeGains]
    apply ih
    · intro q; rw [setParamsAt_maxForce, setParamsAt_maxForce]; exact hmf q
    · intro q hq
      cases hw : w.handle with
      | none =>
        simp only [setParamsAt]
        refine hout q ?_
        intro w2 hw2 p hp
        rcases List.mem_cons.mp hw2 with hcase | hmem
        · rw [hcase, hw] at hp; exact absurd hp (by simp)
        · exact hq w2 hmem p hp
      | some p =>
        by_cases hqp : q = p
        · subst hqp
          simp [setParamsAt, hw, set_drive_parameters, hmf q]
        · have hskip : ∀ p2, (some p : Option String) = some p2 → q ≠ p2 := by
            intro p2 hp2
            injection hp2 with he2
            rw [← he2]
            exact hqp
          rw [setParamsAt_ne _ _ _ _ _ _ _ hskip, setParamsAt_ne _ _ _ _ _ _ _ hskip]
          refine hout q ?_
          intro w2 hw2 p2 hp2
          rcases List.mem_cons.mp hw2 with hcase | hmem
          · rw [hcase, hw] at hp2
            injection hp2 with hpeq
            rw [← hpeq]; exact hqp
          · exact hq w2 hmem p2 hp2

lemma writeGains_idem (ws : List GainWrite) (sc : String → DriveParams) :
    writeGains (writeGains sc ws) ws = writeGains sc ws :=
  writeGains_congr ws sc (writeGains sc ws)
    (fun q => writeGains_maxForce ws sc q)
    (fun q hq => writeGains_ne ws sc q hq)

lemma applyConfigGains_idem (s : ExtState) :
    applyConfigGains (applyConfigGains s) = applyConfigGains s := by
  cases s with
  | mk a b j sc go gt =>
    show ExtState.mk a b j
        (writeGains (writeGains sc (configWrites j)) (configWrites j)) false 0 =
      ExtState.mk a b j (writeGains sc (configWrites j)) false 0
    rw [writeGains_idem]

lemma trySchemeJoints_snd_const (gd : String → Except Unit String) (b : String)
    (j j2 : Joints) :
    (trySchemeJoints gd b j).2 = (trySchemeJoints gd b j2).2 := by
  unfold trySchemeJoints
  rcases hg1 : gd (b ++ joint1Name) with _ | d1
  · simp [hg1]
  simp only [hg1]
  rcases hg2 : gd (b ++ joint2Name) with _ | d2
  · simp [hg2]
  simp only [hg2]
  rcases hg3 : gd (b ++ joint3Name) with _ | d3
  · simp [hg3]
  simp only [hg3]
  rcases hg4 : gd (b ++ joint4Name) with _ | d4
  · simp [hg4]
  simp only [hg4]
  rcases hg5 : gd (b ++ joint5Name) with _ | d5
  · simp [hg5]
  simp only [hg5]
  rcases hg6 : gd (b ++ joint6Name) with _ | d6
  · simp [hg6]
  simp only [hg6]
  rcases hg7 : gd (b ++ jointGripperName) with _ | d7
  · simp [hg7]
  simp [hg7]

lemma trySchemeJoints_success_const (gd : String → Except Unit String) (b : String)
    (j j2 : Joints) (h : (trySchemeJoints gd b j).2 = true) :
    (trySchemeJoints gd b j2).1 = (trySchemeJoints gd b j).1 := by
  unfold trySchemeJoints at h ⊢
  rcases hg1 : gd (b ++ joint1Name) with _ | d1
  · simp [hg1] at h
  simp only [hg1] at h ⊢
  rcases hg2 : gd (b ++ joint2Name) with _ | d2
  · simp [hg2] at h
  simp only [hg2] at h ⊢
  rcases hg3 : gd (b ++ joint3Name) with _ | d3
  · simp [hg3] at h
  simp only [hg3] at h ⊢
  rcases hg4 : gd (b ++ joint4Name) with _ | d4
  · simp [hg4] at h
  simp only [hg4] at h ⊢
  rcases hg5 : gd (b ++ joint5Name) with _ | d5
  · simp [hg5] at h
  simp only [hg5] at h ⊢
  rcases hg6 : gd (b ++ joint6Name) with _ | d6
  · simp [hg6] at h
  simp only [hg6] at h ⊢
  rcases hg7 : gd (b ++ jointGripperName) with _ | d7
  · simp [hg7] at h
  simp [hg7]

lemma bool_not_true_is_false (b : Bool) (h : ¬ b = true) : b = false := by
  revert h; cases b <;> simp

lemma onConfigRobot_success_gripper (gd : String → Except Unit String)
    (s : ExtState) (h : (onConfigRobot gd s).2 = false) :
    (onConfigRobot gd s).1.gripperOpen = false ∧
    (onConfigRobot gd s).1.gripperTargetPosition = 0 := by
  cases s with
  | mk a b j sc go gt =>
    by_cases h1 : (trySchemeJoints gd (robotPath ++ jointsSegment) j).2 = true
    · simp [onConfigRobot, h1, applyConfigGains_as_writes]
    · have h1f := bool_not_true_is_false _ h1
      by_cases h2 : (trySchemeJoints gd (robotPath ++ slashStr)
          (trySchemeJoints gd (robotPath ++ jointsSegment) j).1).2 = true
      · simp [onConfigRobot, h1f, h2, applyConfigGains_as_writes]
      · have h2f := bool_not_true_is_false _ h2
        exfalso
        simp [onConfigRobot, h1f, h2f] at h

/-! ## Claim theorems for the drive configurator -/

/-- C9: drive configuration is idempotent.  When the joint lookup succeeds,
running `_on_config_robot` a second time produces exactly the state of the
first run (in particular the same drive mode, target, stiffness and damping
on each of the seven joints) and again reports no error. -/
theorem config_robot_idempotent (gd : String → Except Unit String)
    (s : ExtState) (h : (onConfigRobot gd s).2 = false) :
    onConfigRobot gd ((onConfigRobot gd s).1) = onConfigRobot gd s := by
  cases s with
  | mk a b j sc go gt =>
    by_cases h1 : (trySchemeJoints gd (robotPath ++ jointsSegment) j).2 = true
    · have h1b : (trySchemeJoints gd (robotPath ++ jointsSegment)
          (trySchemeJoints gd (robotPath ++ jointsSegment) j).1).2 = true :=
        (trySchemeJoints_snd_const gd (robotPath ++ jointsSegment)
          (trySchemeJoints gd (robotPath ++ jointsSegment) j).1 j).trans h1
      have hfst : (trySchemeJoints gd (robotPath ++ jointsSegment)
          (trySchemeJoints gd (robotPath ++ jointsSegment) j).1).1 =
          (trySchemeJoints gd (robotPath ++ jointsSegment) j).1 :=
        trySchemeJoints_success_const gd (robotPath ++ jointsSegment) j
          (trySchemeJoints gd (robotPath ++ jointsSegment) j).1 h1
      simp [onConfigRobot, h1, h1b, hfst, applyConfigGains_as_writes,
        writeGains_idem]
    · have h1f := bool_not_true_is_false _ h1
      by_cases h2 : (trySchemeJoints gd (robotPath ++ slashStr)
          (trySchemeJoints gd (robotPath ++ jointsSegment) j).1).2 = true
      · have h1fb : (trySchemeJoints gd (robotPath ++ jointsSegment)
            (trySchemeJoints gd (robotPath ++ slashStr)
              (trySchemeJoints gd (robotPath ++ jointsSegment) j).1).1).2 = false :=
          (trySchemeJoints_snd_const gd (robotPath ++ jointsSegment)
            (trySchemeJoints gd (robotPath ++ slashStr)
              (trySchemeJoints gd (robotPath ++ jointsSegment) j).1).1 j).trans h1f
        have h2b : (trySchemeJoints gd (robotPath ++ slashStr)
            (trySchemeJoints gd (robotPath ++ jointsSegment)
              (trySchemeJoints gd (robotPath ++ slashStr)
                (trySchemeJoints gd (robotPath ++ jointsSegment) j).1).1).1).2 = true :=
          (trySchemeJoints_snd_const gd (robotPath ++ slashStr)
            (trySchemeJoints gd (robotPath ++ jointsSegment)
              (trySchemeJoints gd (robotPath ++ slashStr)
                (trySchemeJoints gd (robotPath ++ jointsSegment) j).1).1).1
            (trySchemeJoints gd (robotPath ++ jointsSegment) j).1).trans h2
        have hfst2 : (trySchemeJoints gd (robotPath ++ slashStr)
            (trySchemeJoints gd (robotPath ++ jointsSegment)
              (trySchemeJoints gd (robotPath ++ slashStr)
                (trySchemeJoints gd (robotPath ++ jointsSegment) j).1).1).1).1 =
            (trySchemeJoints gd (robotPath ++ slashStr)
              (trySchemeJoints gd (robotPath ++ jointsSegment) j).1).1 :=
          trySchemeJoints_success_const gd (robotPath ++ slashStr)
            (trySchemeJoints gd (robotPath ++ jointsSegment) j).1
            (trySchemeJoints gd (robotPath ++ jointsSegment)
              (trySchemeJoints gd (robotPath ++ slashStr)
                (trySchemeJoints gd (robotPath ++ jointsSegment) j).1).1).1 h2
        simp [onConfigRobot, h1f, h2, h1fb, h2b, hfst2, applyConfigGains_as_writes,
          writeGains_idem]
      · have h2f := bool_not_true_is_false _ h2
        exfalso
        simp [onConfigRobot, h1f, h2f] at h

def gdOk : String → Except Unit String := fun p => Except.ok p

def emptyJoints : Joints := ⟨none, none, none, none, none, none, none⟩

def emptyDrive : DriveParams := ⟨none, none, none, none, none⟩

def cfgState : ExtState :=
  { solverPositionIterationCount := none
    solverVelocityIterationCount := none
    joints := emptyJoints
    scene := fun _ => emptyDrive
    gripperOpen := true
    gripperTargetPosition := -90 }

theorem config_robot_idempotent_witness :
    ((onConfigRobot gdOk cfgState).2 = false) ∧
    onConfigRobot gdOk ((onConfigRobot gdOk cfgState).1) =
      onConfigRobot gdOk cfgState :=
  ⟨by decide, config_robot_idempotent gdOk cfgState (by decide)⟩

def cexGoodPath : String := "/z1_description/joints/joint1"

def cexHandle : String := "fresh-drive"

def oldHandle : String := "old-drive"

/-- A drive oracle that resolves only the primary scheme's `joint1` path:
the primary scheme then fails at `joint2` after overwriting `joint_1`, and
the fallback scheme fails immediately. -/
def cexGd : String → Except Unit String :=
  fun p => if p = cexGoodPath then Except.ok cexHandle else Except.error ()

def cexState : ExtState :=
  { solverPositionIterationCount := some 4
    solverVelocityIterationCount := some 4
    joints := { emptyJoints with joint_1 := some oldHandle }
    scene := fun _ => emptyDrive
    gripperOpen := true
    gripperTargetPosition := -90 }

/-- C5 (original claim refuted): when neither joint-path naming scheme
resolves, the configurator does NOT leave all prior state unchanged.  With
drives resolvable only at the primary scheme's `joint1` path, both schemes
fail and the error is reported, yet the articulation's solver
position-iteration count has been changed (to 64) and the previously stored
`joint_1` handle has been overwritten by the partially successful primary
attempt. -/
theorem config_robot_prior_state_cex :
    (onConfigRobot cexGd cexState).2 = true ∧
    (onConfigRobot cexGd cexState).1.solverPositionIterationCount ≠
      cexState.solverPositionIterationCount ∧
    (onConfigRobot cexGd cexState).1.joints.joint_1 ≠ cexState.joints.joint_1 := by
  refine ⟨by decide, by decide, by decide⟩

/-- C5 as amended: when neither naming scheme resolves the seven drive
handles, the configurator reports a visible error and returns without
setting any drive gains and without touching the gripper state, but the
articulation's solver position/velocity iteration counts have already been
set to 64 before the lookup, and joint handles assigned by a partially
successful scheme attempt may remain overwritten. -/
theorem config_robot_lookup_failure_amended (gd : String → Except Unit String)
    (s : ExtState) (h : (onConfigRobot gd s).2 = true) :
    (onConfigRobot gd s).1.scene = s.scene ∧
    (onConfigRobot gd s).1.gripperOpen = s.gripperOpen ∧
    (onConfigRobot gd s).1.gripperTargetPosition = s.gripperTargetPosition ∧
    (onConfigRobot gd s).1.solverPositionIterationCount = some 64 ∧
    (onConfigRobot gd s).1.solverVelocityIterationCount = some 64 := by
  cases s with
  | mk a b j sc go gt =>
    by_cases h1 : (trySchemeJoints gd (robotPath ++ jointsSegment) j).2 = true
    · exfalso; simp [onConfigRobot, h1] at h
    · have h1f := bool_not_true_is_false _ h1
      by_cases h2 : (trySchemeJoints gd (robotPath ++ slashStr)
          (trySchemeJoints gd (robotPath ++ jointsSegment) j).1).2 = true
      · exfalso; simp [onConfigRobot, h1f, h2] at h
      · have h2f := bool_not_true_is_false _ h2
        simp [onConfigRobot, h1f, h2f]

theorem config_robot_lookup_failure_amended_witness :
    ((onConfigRobot cexGd cexState).2 = true) ∧
    ((onConfigRobot cexGd cexState).1.scene = cexState.scene ∧
      (onConfigRobot cexGd cexState).1.gripperOpen = cexState.gripperOpen ∧
      (onConfigRobot cexGd cexState).1.gripperTargetPosition =
        cexState.gripperTargetPosition ∧
      (onConfigRobot cexGd cexState).1.solverPositionIterationCount = some 64 ∧
      (onConfigRobot cexGd cexState).1.solverVelocityIterationCount = some 64) :=
  ⟨by decide, config_robot_lookup_failure_amended cexGd cexState (by decide)⟩

/-- C10: every call to the configurator that succeeds in locating the joint
drives resets the gripper state to closed (flag false, target 0 degrees),
whatever its prior toggled state; `_on_config_drives` (the Move-to-Pose
handler), which invokes the configurator first, performs the same reset;
and a physics tick executed with the reset target commands the gripper slot
to `radians 0 = 0`. -/
theorem config_resets_gripper_state (gd : String → Except Unit String)
    (s : ExtState) (h : (onConfigRobot gd s).2 = false)
    (e : StepEnv) (ops : List XformOp) (i : ℕ) (jp : List ℚ)
    (he : e.gripperTargetPosition = 0)
    (hc : e.controllerSome = true) (hh : e.handlesInit = true)
    (ht : e.targetOps = some ops)
    (hg : findGripperIndex e.dofNames = some i)
    (hjp : (e.forward (readTargetPose e.cosF e.sinF ops).1
        (readTargetPose e.cosF e.sinF ops).2).joint_positions = some jp)
    (hlen : i < jp.length) :
    (onConfigRobot gd s).1.gripperOpen = false ∧
    (onConfigRobot gd s).1.gripperTargetPosition = 0 ∧
    (onConfigDrives gd s).1.gripperOpen = false ∧
    (onConfigDrives gd s).1.gripperTargetPosition = 0 ∧
    radians 0 = 0 ∧
    (physicsStep e).appliedAction =
      some { e.forward (readTargetPose e.cosF e.sinF ops).1
               (readTargetPose e.cosF e.sinF ops).2 with
             joint_positions := some (jp.set i 0) } := by
  obtain ⟨hgo, hgt⟩ := onConfigRobot_success_gripper gd s h
  refine ⟨hgo, hgt, ?_, ?_, by simp [radians], ?_⟩
  · cases hj : (onConfigRobot gd s).1.joints.joint_1 with
    | none => simpa [onConfigDrives, hj] using hgo
    | some p => simpa [onConfigDrives, hj] using hgo
  · cases hj : (onConfigRobot gd s).1.joints.joint_1 with
    | none => simpa [onConfigDrives, hj] using hgt
    | some p => simpa [onConfigDrives, hj] using hgt
  · have hz : radians e.gripperTargetPosition = 0 := by simp [he, radians]
    simp [physicsStep, hc, hh, ht, tryPatchGripper, patchGripperE, hg, hjp, hlen, hz]

def zeroGripEnv : StepEnv := { witnessEnv with gripperTargetPosition := 0 }

theorem config_resets_gripper_state_witness :
    ((onConfigRobot gdOk cfgState).2 = false ∧
      zeroGripEnv.gripperTargetPosition = 0 ∧
      zeroGripEnv.controllerSome = true ∧ zeroGripEnv.handlesInit = true ∧
      zeroGripEnv.targetOps = some [] ∧
      findGripperIndex zeroGripEnv.dofNames = some 1 ∧
      (zeroGripEnv.forward (readTargetPose zeroGripEnv.cosF zeroGripEnv.sinF []).1
        (readTargetPose zeroGripEnv.cosF zeroGripEnv.sinF []).2).joint_positions =
        some [1, 2] ∧
      1 < ([1, 2] : List ℚ).length) ∧
    ((onConfigRobot gdOk cfgState).1.gripperOpen = false ∧
      (onConfigRobot gdOk cfgState).1.gripperTargetPosition = 0 ∧
      (onConfigDrives gdOk cfgState).1.gripperOpen = false ∧
      (onConfigDrives gdOk cfgState).1.gripperTargetPosition = 0 ∧
      radians 0 = 0 ∧
      (physicsStep zeroGripEnv).appliedAction =
        some { zeroGripEnv.forward (readTargetPose zeroGripEnv.cosF zeroGripEnv.sinF []).1
                 (readTargetPose zeroGripEnv.cosF zeroGripEnv.sinF []).2 with
               joint_positions := some (([1, 2] : List ℚ).set 1 0) }) :=
  ⟨⟨by decide, rfl, rfl, rfl, rfl, by decide, rfl, by decide⟩,
    config_resets_gripper_state gdOk cfgState (by decide) zeroGripEnv [] 1 [1, 2]
      rfl rfl rfl rfl (by decide) rfl (by decide)⟩

end ImportZ1
